import Mathlib

/-!
Verification of the `chatbot-evaluation` scenario engine: a shallow embedding
of the order store (`database.py`), the tool layer (`tools.py`), the rubric
scorer (`test_evaluation.py`), the judge response parsing
(`llm_judge_implementation.py`), the few-shot example parsing (`main.py`) and
the simulator order creation (`simulator.py`), together with theorems about
the behaviour of these functions.

Text is modelled as `List Char` (Python `str`).  Case mapping is modelled for
the ASCII range, which is where Python's `str.lower`/`str.upper` and the
repository's data coincide.  Whitespace is modelled as the ASCII whitespace
characters recognised by Python's `str.strip` and the regex class `\s`.
-/

/-- The characters of a string literal; Python text is modelled as `List Char`. -/
def chars (s : String) : List Char := s.data

/-- ASCII whitespace as matched by the Python regex class `\s` and stripped by
`str.strip` (space, tab, newline, carriage return, vertical tab, form feed). -/
def isWsChar (c : Char) : Bool :=
  c = ' ' || c = '\t' || c = '\n' || c = '\r' || c = '\x0b' || c = '\x0c'

/-- Python `str.strip()`: drop leading and trailing whitespace. -/
def stripWs (s : List Char) : List Char :=
  ((s.dropWhile isWsChar).reverse.dropWhile isWsChar).reverse

/-- Python `str.upper()` (ASCII range). -/
def upperStr (s : List Char) : List Char := s.map Char.toUpper

/-- Python `str.lower()` (ASCII range). -/
def lowerStr (s : List Char) : List Char := s.map Char.toLower

/-- `needle` is a prefix of `hay` (helper for substring containment). -/
def isPrefixOfB : List Char → List Char → Bool
  | [], _ => true
  | _ :: _, [] => false
  | a :: as, b :: bs => a = b && isPrefixOfB as bs

/-- Python `needle in hay` on strings: contiguous substring containment. -/
def containsSub (needle : List Char) : List Char → Bool
  | [] => isPrefixOfB needle []
  | h :: hs => isPrefixOfB needle (h :: hs) || containsSub needle hs

/-- Python `a or b` on strings: `a` if non-empty, else `b`. -/
def pyOr (a b : List Char) : List Char := if a = [] then b else a

-- ## Order store (`database.py`)

/-- One row of the `orders` table created by `create_db_and_tables`:
`order_id, status, items, eta, issue_label, resolution_note`; `items` holds a
JSON-serialised list, `eta` and `resolution_note` are nullable. -/
structure OrderRow where
  order_id : List Char
  status : List Char
  items : List Char
  eta : Option (List Char)
  issue_label : List Char
  resolution_note : Option (List Char)
deriving DecidableEq, Repr

/-- The `orders` table. -/
abbrev OrdersDb := List OrderRow

/-- `database.get_order`: `SELECT * FROM orders WHERE order_id = ?` and
`fetchone()` — the first row with the given id, if any. -/
def dbGetOrder (db : OrdersDb) (oid : List Char) : Option OrderRow :=
  db.find? (fun r => r.order_id = oid)

/-- `database.update_order_resolution`: `UPDATE orders SET resolution_note = ?
WHERE order_id = ?`.  The second component of the result records the lines the
function prints; its body contains no print or log call, so that component is
always empty.  An id matching no row updates nothing and raises nothing. -/
def dbUpdateOrderResolution (db : OrdersDb) (oid note : List Char) :
    OrdersDb × List (List Char) :=
  (db.map (fun r =>
    if r.order_id = oid then { r with resolution_note := some note } else r), [])

/-- `database.create_order`: `INSERT INTO orders ... VALUES (?, ?, ?, ?, ?, ?)`
with `resolution_note = None`.  `order_id` is the primary key, so inserting a
duplicate id raises an integrity error, modelled as `Except.error`.
The caller passes `template_data.get('status', 'unknown')`,
`json.dumps(template_data.get('items', []))` and `template_data.get('eta')`;
here the row is received already assembled. -/
def dbInsertOrder (db : OrdersDb) (row : OrderRow) : Except (List Char) OrdersDb :=
  if (db.find? (fun r => r.order_id = row.order_id)).isSome then
    Except.error (chars "UNIQUE constraint failed: orders.order_id")
  else
    Except.ok (db ++ [row])

-- ## Tool layer (`tools.py`)

/-- The found-order half of `OrderTrackerTool._run`: reply with the resolution
note when one is already set (Python truthiness: a `None` or empty note takes
the plain-status branch), else status plus ETA when truthy. -/
def orderTrackerFound (oid : List Char) (order : OrderRow) : List Char :=
  if order.resolution_note ≠ none ∧ order.resolution_note ≠ some [] then
    chars "Status for order " ++ oid ++ chars " is \x27" ++ order.status ++
      chars "\x27. Issue already resolved: " ++ order.resolution_note.getD []
  else
    let details := chars "Order " ++ oid ++ chars " status is \x27" ++
      order.status ++ chars "\x27."
    if order.eta ≠ none ∧ order.eta ≠ some [] then
      details ++ chars " ETA: " ++ order.eta.getD [] ++ chars "."
    else details

/-- `OrderTrackerTool._run`: look the order up and report, or return the
not-found error string. -/
def orderTrackerRun (db : OrdersDb) (oid : List Char) : List Char :=
  match dbGetOrder db oid with
  | none => chars "Error: Order ID " ++ oid ++ chars " not found."
  | some order => orderTrackerFound oid order

/-- The alias table at the top of `IssueResolverTool._run`. -/
def aliasMap : List (List Char × List Char) :=
  [ (chars "LATE", chars "late_delivery"),
    (chars "QUALITY", chars "poor_quality"),
    (chars "MISS", chars "missing_items"),
    (chars "WRONG", chars "wrong_order"),
    (chars "PAYMENT", chars "payment_issue"),
    (chars "ADDRESS", chars "address_error"),
    (chars "COLD", chars "cold_food") ]

/-- The tracking-redirect reply of `IssueResolverTool._run` for `TRACK`. -/
def trackRedirectMsg : List Char :=
  chars "Tracking requests are handled by the order tracker tool. Please use \x27order_tracker\x27 to fetch status/ETA."

/-- The instructive rejection returned by the late-delivery confirmation gate. -/
def lateGateMsg : List Char :=
  chars "Confirmation required before issuing credits for late delivery. Ask the user to confirm the delay first (Phase 1), then call \x27issue_resolver\x27 again with details including \x27confirmed\x27 to proceed."

/-- The resolution note written for a confirmed late delivery. -/
def lateCreditsNote : List Char :=
  chars "delivery credits have been added to your account for the inconvenience. We apologize for the delay."

/-- The final reply of `IssueResolverTool._run` after persisting `res`. -/
def processedReply (oid res : List Char) : List Char :=
  chars "I have processed your request for order " ++ oid ++
    chars ". The resolution is: " ++ res

/-- The per-issue-type dispatch of `IssueResolverTool._run` (the `if`/`elif`
chain after alias normalisation), ending in
`database.update_order_resolution(order_id, resolution)` and the confirmation
reply — except for the late-delivery confirmation gate, which returns its
rejection before any store write. -/
def resolverDispatch (db : OrdersDb) (oid it details missing_items refund_amount : List Char) :
    List Char × OrdersDb :=
  if it = chars "missing_items" then
    let items_info := pyOr (pyOr missing_items details) (chars "the missing item")
    let res := chars "a partial refund for " ++ items_info ++ chars " has been issued."
    (processedReply oid res, (dbUpdateOrderResolution db oid res).1)
  else if it = chars "poor_quality" then
    let res :=
      if refund_amount ≠ [] then
        chars "a full refund of " ++ refund_amount ++
          chars " has been credited to your account for the quality issue."
      else chars "a full refund for the affected item has been credited to your account."
    (processedReply oid res, (dbUpdateOrderResolution db oid res).1)
  else if it = chars "payment_issue" then
    let res := chars "the billing issue has been escalated for immediate investigation. Our team will follow up via email within 24 hours."
    (processedReply oid res, (dbUpdateOrderResolution db oid res).1)
  else if it = chars "wrong_order" then
    let res :=
      if containsSub (chars "reship") (lowerStr details) ||
         containsSub (chars "replacement") (lowerStr details) then
        chars "a replacement for the correct order has been prepared and is on its way."
      else if containsSub (chars "refund") (lowerStr details) then
        chars "a full refund has been issued for the incorrect order."
      else chars "the issue has been logged and we will either reship the correct order or issue a refund shortly."
    (processedReply oid res, (dbUpdateOrderResolution db oid res).1)
  else if it = chars "address_error" then
    let res := chars "the delivery address has been updated and the driver rerouted. The new ETA will appear in your app. Details: " ++ details
    (processedReply oid res, (dbUpdateOrderResolution db oid res).1)
  else if it = chars "cold_food" then
    let res := chars "a formal service complaint has been logged with our delivery operations team to ensure this doesn\x27t happen again. We take this feedback very seriously."
    (processedReply oid res, (dbUpdateOrderResolution db oid res).1)
  else if it = chars "late_delivery" then
    if containsSub (chars "confirm") (lowerStr details) = false then
      (lateGateMsg, db)
    else
      (processedReply oid lateCreditsNote,
        (dbUpdateOrderResolution db oid lateCreditsNote).1)
  else
    let res := chars "your issue (\x27" ++ details ++ chars "\x27) has been logged and escalated for review."
    (processedReply oid res, (dbUpdateOrderResolution db oid res).1)

/-- `IssueResolverTool._run`: normalise `issue_type`
(`(issue_type or "").strip().upper()`), map scenario aliases to internal issue
types, reject `TRACK` with the tracker redirect, otherwise dispatch.  Returns
the reply string and the resulting store. -/
def issueResolverRun (db : OrdersDb) (oid issue_type details missing_items refund_amount : List Char) :
    List Char × OrdersDb :=
  match aliasMap.lookup (upperStr (stripWs issue_type)) with
  | some v => resolverDispatch db oid v details missing_items refund_amount
  | none =>
    if upperStr (stripWs issue_type) = chars "TRACK" then (trackRedirectMsg, db)
    else resolverDispatch db oid issue_type details missing_items refund_amount


/-- A sample one-row store used by concrete witnesses. -/
def sampleDb : OrdersDb :=
  [⟨chars "ORD-123456", chars "out for delivery", chars "[]",
    some (chars "15 mins"), chars "LATE", none⟩]

/-- An order carrying both a status and a resolution note. -/
def trackRowA : OrderRow :=
  ⟨chars "ORD-111111", chars "out for delivery", chars "[]",
    some (chars "10 mins"), chars "LATE", some (chars "a credit was issued")⟩

/-- The same order with a different status but the identical note. -/
def trackRowB : OrderRow :=
  ⟨chars "ORD-111111", chars "preparing", chars "[]",
    some (chars "10 mins"), chars "LATE", some (chars "a credit was issued")⟩

-- ## Rubric phrase scorer (`test_evaluation.py`, `semantic_rubric_scores`)

/-- The fancy-quote/dash normalisation inside `norm`:
`’ → '`, `“ → "`, `” → "`, `– → -` (each a single-character replacement). -/
def replaceFancyChar (c : Char) : Char :=
  if c = '’' then '\x27'
  else if c = '“' then '"'
  else if c = '”' then '"'
  else if c = '–' then '-'
  else c

/-- `re.sub(r"\s+", " ", s)`: every maximal whitespace run becomes one space.
The boolean tracks whether the previous character was part of a run. -/
def collapseWsAux : Bool → List Char → List Char
  | _, [] => []
  | prevWs, c :: rest =>
    if isWsChar c then
      if prevWs then collapseWsAux true rest
      else ' ' :: collapseWsAux true rest
    else c :: collapseWsAux false rest

def collapseWs (s : List Char) : List Char := collapseWsAux false s

/-- The `norm` helper of `semantic_rubric_scores`: lower-case, normalise fancy
quotes/dashes, collapse whitespace runs to single spaces, strip. -/
def normText (s : List Char) : List Char :=
  stripWs (collapseWs ((s.map Char.toLower).map replaceFancyChar))

/-- The four rubric categories (the keys of `exemplars`). -/
inductive RubricCat where
  | accuracy | empathy | resolution | clarity_tone
deriving DecidableEq, Repr

/-- The exemplar phrase lists of `semantic_rubric_scores`, verbatim. -/
def phrasesOf : RubricCat → List (List Char)
  | .accuracy =>
    [chars "tracker shows", chars "current status", chars "eta",
     chars "items in your order", chars "confirm", chars "order id", chars "ord-",
     chars "was expected", chars "out for delivery", chars "driver is en route",
     chars "delivered", chars "preparing"]
  | .empathy =>
    [chars "i\x27m sorry", chars "so sorry", chars "i understand",
     chars "i know this is frustrating", chars "thanks for your patience",
     chars "apologize for the inconvenience", chars "that sounds disappointing"]
  | .resolution =>
    [chars "issued a credit", chars "partial credit", chars "processed a refund",
     chars "full refund", chars "replacement", chars "partial refund",
     chars "resolution", chars "resend the order", chars "updated the address",
     chars "escalated this", chars "logged the issue", chars "applied a voucher"]
  | .clarity_tone =>
    [chars "please", chars "thank you", chars "could you", chars "can you",
     chars "let me", chars "i can help", chars "i\x27ll take care of this",
     chars "here\x27s what i\x27ve done", chars "anything else i can assist you with",
     chars "has this resolved your issue", chars "does this resolve your issue",
     chars "does this help", chars "has this been resolved",
     chars "let me know if you need anything else", chars "please confirm",
     chars "thanks for confirming", chars "please share", chars "please provide",
     chars "please let me know"]

/-- `TARGET_MATCHES.get(cat, TARGET_MATCHES['default'])`: 1 for
`clarity_tone`, 3 for every other category. -/
def targetOf : RubricCat → Nat
  | .clarity_tone => 1
  | _ => 3

/-- The per-category counting loop: how many exemplar phrases occur (after
normalisation) as substrings of the normalised text. -/
def matchCountOf (cat : RubricCat) (text : List Char) : Nat :=
  (phrasesOf cat).countP (fun p => containsSub (normText p) (normText text))

/-- Python `round(x, 1)` on the scorer's values.  Python rounds ties to even;
the values this scorer produces (`0`, `1000/3`, `2000/3`, `1000` after the
factor 10) are never ties, so nearest-integer rounding is exact here. -/
def round1 (q : ℚ) : ℚ := (round (q * 10) : ℚ) / 10

/-- `min(matches, target) / target * 100.0`, rounded to one decimal. -/
def catScore (target m : Nat) : ℚ :=
  round1 (((min m target : ℕ) : ℚ) / (target : ℚ) * 100)

/-- The per-category score of `semantic_rubric_scores`. -/
def scoreOf (cat : RubricCat) (text : List Char) : ℚ :=
  catScore (targetOf cat) (matchCountOf cat text)

/-- The result dict of `semantic_rubric_scores`: exactly the four keys
`accuracy`, `empathy`, `resolution`, `clarity_tone` (the `setdefault` loop at
the end guarantees no key is missing). -/
structure RubricScores where
  accuracy : ℚ
  empathy : ℚ
  resolution : ℚ
  clarity_tone : ℚ
deriving DecidableEq, Repr

/-- `semantic_rubric_scores`: phrase-count each category against the
normalised text and scale to a capped percentage. -/
def semanticRubricScores (text : List Char) : RubricScores :=
  ⟨scoreOf .accuracy text, scoreOf .empathy text,
   scoreOf .resolution text, scoreOf .clarity_tone text⟩

-- ## Judge response parsing (`llm_judge_implementation.py`)

/-- Python `str.find(c)`: index of the first occurrence (`none` for -1). -/
def findCharIdx (c : Char) : List Char → Option Nat
  | [] => none
  | x :: xs => if x = c then some 0 else (findCharIdx c xs).map (· + 1)

/-- Python `str.rfind(c)`: index of the last occurrence (`none` for -1). -/
def rfindCharIdx (c : Char) : List Char → Option Nat
  | [] => none
  | x :: xs =>
    match rfindCharIdx c xs with
    | some i => some (i + 1)
    | none => if x = c then some 0 else none

/-- The `ValueError` message of `LLMJudge._parse_llm_response`. -/
def jsonNotFoundErr : List Char := chars "No JSON found in response"

/-- The JSON-extraction step of `LLMJudge._parse_llm_response`:
`start = text.find('\x7b')`, `end = text.rfind('\x7d') + 1`; raise when
`start == -1 or end == 0`, else slice `text[start:end]` (which is then fed to
`json.loads`). -/
def parseLLMResponseExtract (s : List Char) : Except (List Char) (List Char) :=
  match findCharIdx '\x7b' s with
  | none => Except.error jsonNotFoundErr
  | some start =>
    match rfindCharIdx '\x7d' s with
    | none => Except.error jsonNotFoundErr
    | some j => Except.ok ((s.take (j + 1)).drop start)

/-- The result dict of `LLMJudge._get_default_scores`. -/
structure DefaultScores where
  empathy : Nat
  accuracy : Nat
  policy_compliance : Nat
  resolution_quality : Nat
  phase_compliance : Nat
  overall_score : Nat
  justification : List Char
  strengths : List (List Char)
  weaknesses : List (List Char)
  failure_modes : List (List Char)
deriving DecidableEq, Repr

/-- `LLMJudge._get_default_scores`: the documented all-zero fallback tagged
with the `evaluation_error` failure mode. -/
def getDefaultScores : DefaultScores :=
  ⟨0, 0, 0, 0, 0, 0, chars "Error parsing LLM response", [],
    [chars "Evaluation failed"], [chars "evaluation_error"]⟩

/-- Outcome of the `try`/`except` in `LLMJudge.evaluate_response` around
`_parse_llm_response`: either the extracted JSON text (handed to
`json.loads`, whose own failures also land in the default branch but are
outside the scope verified here), or the default scores. -/
inductive JudgeEval where
  | extracted (jsonStr : List Char)
  | defaulted (d : DefaultScores)
deriving DecidableEq, Repr

/-- The parse-and-catch path of `LLMJudge.evaluate_response` applied to the
model's reply text. -/
def evaluateResponseParse (content : List Char) : JudgeEval :=
  match parseLLMResponseExtract content with
  | Except.ok j => JudgeEval.extracted j
  | Except.error _ => JudgeEval.defaulted getDefaultScores


-- ## Simulator order creation (`simulator.py` / `database.create_order`)

/-- One scenario template from `scenarios.yaml` as consumed by
`create_order`: `template_data.get('status', 'unknown')`,
`template_data.get('items', [])`, `template_data.get('eta')` — all three keys
optional.  The prompt suffix is irrelevant to order creation. -/
structure ScenarioTemplate where
  status : Option (List Char)
  items : Option (List (List Char))
  eta : Option (List Char)
deriving DecidableEq, Repr

/-- Lower-case hex digit, as used by `json.dumps` control-character escapes. -/
def hexDigit (n : Nat) : Char :=
  if n < 10 then Char.ofNat (48 + n) else Char.ofNat (87 + n)

/-- `json.dumps` escaping of one character inside a string literal.
(Non-ASCII `ensure_ascii` escaping is not modelled; the scenario data is
ASCII and no claim inspects the serialised items.) -/
def jsonEscapeChar (c : Char) : List Char :=
  if c = '"' then chars "\\\""
  else if c = '\\' then chars "\\\\"
  else if c = '\n' then chars "\\n"
  else if c = '\t' then chars "\\t"
  else if c = '\r' then chars "\\r"
  else if c = '\x08' then chars "\\b"
  else if c = '\x0c' then chars "\\f"
  else if c.toNat < 32 then
    chars "\\u00" ++ [hexDigit (c.toNat / 16), hexDigit (c.toNat % 16)]
  else [c]

/-- `json.dumps` of a string. -/
def jsonDumpsStr (s : List Char) : List Char :=
  '"' :: (s.flatMap jsonEscapeChar) ++ ['"']

/-- `json.dumps` of a list of strings (default `", "` separator). -/
def jsonDumpsStrList (xs : List (List Char)) : List Char :=
  '[' :: (List.intercalate (chars ", ") (xs.map jsonDumpsStr)) ++ [']']

/-- `database.create_order(order_id, issue_label, template_data)`: insert the
row with the template defaults and a null resolution note. -/
def dbCreateOrder (db : OrdersDb) (oid issue_label : List Char)
    (t : ScenarioTemplate) : Except (List Char) OrdersDb :=
  dbInsertOrder db
    ⟨oid, t.status.getD (chars "unknown"), jsonDumpsStrList (t.items.getD []),
      t.eta, issue_label, none⟩

/-- `Simulator.KEYWORD_MAP`, in declaration (priority) order. -/
def KEYWORD_MAP : List (List Char × List (List Char)) :=
  [ (chars "TRACK", [chars "track", chars "where", chars "status"]),
    (chars "LATE", [chars "late", chars "delayed"]),
    (chars "MISS", [chars "missing", chars "didn\x27t get", chars "did not get"]),
    (chars "WRONG", [chars "wrong", chars "not what i ordered"]),
    (chars "PAYMENT", [chars "payment", chars "charge", chars "billing"]),
    (chars "ADDRESS", [chars "address"]),
    (chars "COLD", [chars "cold", chars "not hot"]),
    (chars "QUALITY", [chars "bad", chars "stale", chars "quality"]) ]

/-- The keyword-inference step of `Simulator.assign_and_create_order`:
when `label` is falsy and `user_input` truthy, pick the first `KEYWORD_MAP`
entry one of whose keywords occurs in the lower-cased input. -/
def inferredLabel (user_input : Option (List Char)) (label : Option (List Char)) :
    Option (List Char) :=
  if (label = none ∨ label = some []) ∧ (user_input ≠ none ∧ user_input ≠ some []) then
    match KEYWORD_MAP.find? (fun p =>
        p.2.any (fun kw => containsSub kw (lowerStr (user_input.getD [])))) with
    | some p => some p.1
    | none => label
  else label

/-- The fallback step: a still-falsy label becomes the first template key,
or `QUALITY` when no templates are loaded
(`next(iter(self.scenario_templates), "QUALITY")`). -/
def chosenLabel (templates : List (List Char × ScenarioTemplate))
    (label1 : Option (List Char)) : List Char :=
  if label1 = none ∨ label1 = some [] then
    match templates with
    | [] => chars "QUALITY"
    | (k, _) :: _ => k
  else label1.getD []

/-- The tail of `Simulator.assign_and_create_order` once the label is fixed:
look the template up (falling back to an empty template with a warning when
the label is unknown — never raising), create the order, return id and label.
The random order id is passed in as `newId`. -/
def createWithLabel (templates : List (List Char × ScenarioTemplate))
    (db : OrdersDb) (newId label2 : List Char) :
    Except (List Char) (OrdersDb × List Char × List Char) :=
  match templates.lookup label2 with
  | some t => (dbCreateOrder db newId label2 t).map (fun db2 => (db2, newId, label2))
  | none =>
    (dbCreateOrder db newId label2 ⟨none, none, none⟩).map
      (fun db2 => (db2, newId, label2))

/-- `Simulator.assign_and_create_order(user_input, label)`. -/
def assignAndCreateOrder (templates : List (List Char × ScenarioTemplate))
    (db : OrdersDb) (newId : List Char)
    (user_input : Option (List Char)) (label : Option (List Char)) :
    Except (List Char) (OrdersDb × List Char × List Char) :=
  createWithLabel templates db newId
    (chosenLabel templates (inferredLabel user_input label))


/-- A one-entry template store used by the C7 witness. -/
def demoTemplates : List (List Char × ScenarioTemplate) :=
  [(chars "LATE",
    ⟨some (chars "out for delivery"), some [chars "Chicken Burger"],
      some (chars "10 mins")⟩)]

-- ## Few-shot example parsing (`main.py`, `parse_few_shot_examples`)

/-- ASCII `\w` (the regex word class): letters, digits, underscore. -/
def isWordChar (c : Char) : Bool :=
  ('a' ≤ c && c ≤ 'z') || ('A' ≤ c && c ≤ 'Z') || ('0' ≤ c && c ≤ '9') || c = '_'

/-- Consume a case-insensitive literal; return the rest on success. -/
def ciStartsWith : List Char → List Char → Option (List Char)
  | [], s => some s
  | _ :: _, [] => none
  | p :: ps, c :: cs =>
    if Char.toLower c = Char.toLower p then ciStartsWith ps cs else none

/-- Consume one optional literal character, greedily.  In every pattern below
the character that may follow an optional element differs from the optional
character itself, so the greedy choice agrees with the backtracking regex
engine. -/
def optChar (ch : Char) : List Char → List Char
  | [] => []
  | c :: cs => if c = ch then cs else c :: cs

/-- Matcher for the few-shot delimiter regex of `parse_few_shot_examples`:
one or two `*`, `Few`, optional `-`, `shot example`, optional `s`, optional
`:`, then one or two `*` — case-insensitive.  Returns the rest after the
match.  (A leading `**` that cannot be followed by `few` also fails the
one-star backtrack, since the next character is then `*`.) -/
def matchMarkerRest (s : List Char) : Option (List Char) :=
  match s with
  | '*' :: s1 =>
    match ciStartsWith (chars "few") (optChar '*' s1) with
    | none => none
    | some s3 =>
      match ciStartsWith (chars "shot example") (optChar '-' s3) with
      | none => none
      | some s5 =>
        match optChar ':' (optChar 's' s5) with
        | '*' :: s7 => some (optChar '*' s7)
        | _ => none
  | _ => none

/-- `re.search` for the delimiter: the leftmost match, as a
`(start, end)` index pair. -/
def searchMarkerAux (i : Nat) : List Char → Option (Nat × Nat)
  | [] => none
  | c :: rest =>
    match matchMarkerRest (c :: rest) with
    | some r => some (i, i + ((c :: rest).length - r.length))
    | none => searchMarkerAux (i + 1) rest

def searchMarker (s : List Char) : Option (Nat × Nat) := searchMarkerAux 0 s

/-- Matcher for the example-delimiter regex: `Example`, one or more
whitespace, one or more word characters, optional whitespace, `:`
(case-insensitive).  The character classes are pairwise disjoint, so maximal
munch agrees with the regex engine. -/
def matchExampleRest (s : List Char) : Option (List Char) :=
  match ciStartsWith (chars "example") s with
  | none => none
  | some s1 =>
    match s1 with
    | c :: cs =>
      if isWsChar c then
        match cs.dropWhile isWsChar with
        | d :: ds =>
          if isWordChar d then
            match (ds.dropWhile isWordChar).dropWhile isWsChar with
            | ':' :: s5 => some s5
            | _ => none
          else none
        | [] => none
      else none
    | [] => none

/-- Matched length of the example delimiter at this position. -/
def matchExampleLen (s : List Char) : Option Nat :=
  (matchExampleRest s).map (fun r => s.length - r.length)

/-- Matcher for one alternative of the turn-delimiter regex: one or two `*`,
the word (`User` or `Agent`, case-insensitive), optional whitespace, `:`,
then one or two `*`. -/
def matchTurnRest (word : List Char) (s : List Char) : Option (List Char) :=
  match s with
  | '*' :: s1 =>
    match ciStartsWith word (optChar '*' s1) with
    | none => none
    | some s3 =>
      match s3.dropWhile isWsChar with
      | ':' :: '*' :: s5 => some (optChar '*' s5)
      | _ => none
  | _ => none

/-- Matched length of the `User:`/`Agent:` delimiter alternation at this
position (the `User` alternative is tried first, as in the regex). -/
def matchUserAgentLen (s : List Char) : Option Nat :=
  match matchTurnRest (chars "user") s with
  | some r => some (s.length - r.length)
  | none =>
    match matchTurnRest (chars "agent") s with
    | some r => some (s.length - r.length)
    | none => none

/-- `re.split` with a matcher: scan left to right, cut at every
(non-overlapping, leftmost) match.  A zero-length match is treated as no
match; the matchers above always consume at least one character.  The fuel
argument only makes the recursion structural: every step consumes at least
one input character, so fuel `s.length` (as passed by `splitBy`) never runs
out before the input does and the fuel-exhaustion arm is unreachable. -/
def splitByAux (matchLen : List Char → Option Nat) :
    Nat → List Char → List Char → List (List Char)
  | _, acc, [] => [acc.reverse]
  | 0, acc, rest => [acc.reverse ++ rest]
  | fuel + 1, acc, c :: rest =>
    match matchLen (c :: rest) with
    | some n =>
      if n = 0 then splitByAux matchLen fuel (c :: acc) rest
      else acc.reverse :: splitByAux matchLen fuel [] (List.drop (n - 1) rest)
    | none => splitByAux matchLen fuel (c :: acc) rest

def splitBy (matchLen : List Char → Option Nat) (s : List Char) :
    List (List Char) :=
  splitByAux matchLen s.length [] s

/-- `HumanMessage` / `AIMessage` entries appended by the parsing loop. -/
inductive FewShotMsg where
  | human (content : List Char)
  | ai (content : List Char)
deriving DecidableEq, Repr

/-- `print(f"Warning: Example {i} doesn't have both User and Agent parts,
skipping")`. -/
def warnMissingParts (i : Nat) : List Char :=
  chars "Warning: Example " ++ chars (toString i) ++
    chars " doesn\x27t have both User and Agent parts, skipping"

/-- `print(f"Warning: Example {i} has empty user or agent content,
skipping")`. -/
def warnEmptyContent (i : Nat) : List Char :=
  chars "Warning: Example " ++ chars (toString i) ++
    chars " has empty user or agent content, skipping"

/-- The per-block loop of `parse_few_shot_examples` (blocks numbered from 1):
split each block on the `User:`/`Agent:` delimiters; with at least three
parts and both stripped halves non-empty, append the message pair, else
record the appropriate warning and skip.  Returns the messages and the
warnings printed, in order. -/
def processBlocks (i : Nat) : List (List Char) → List FewShotMsg × List (List Char)
  | [] => ([], [])
  | b :: rest =>
    match splitBy matchUserAgentLen b with
    | _ :: p1 :: p2 :: _ =>
      if stripWs p1 = [] ∨ stripWs p2 = [] then
        ((processBlocks (i + 1) rest).1,
          warnEmptyContent i :: (processBlocks (i + 1) rest).2)
      else
        (FewShotMsg.human (stripWs p1) :: FewShotMsg.ai (stripWs p2) ::
            (processBlocks (i + 1) rest).1,
          (processBlocks (i + 1) rest).2)
    | _ =>
      ((processBlocks (i + 1) rest).1,
        warnMissingParts i :: (processBlocks (i + 1) rest).2)

/-- `parse_few_shot_examples(adaptive_suffix)`: find the few-shot delimiter
(no delimiter: no examples, whole suffix as prompt), split the stripped text
after it into `Example N:` blocks, drop the text before the first block, and
run the per-block loop.  Returns (messages, prompt part, printed warnings);
the function is total — malformed blocks are skipped, never fatal. -/
def parseFewShotExamples (adaptive_suffix : List Char) :
    List FewShotMsg × List Char × List (List Char) :=
  match searchMarker adaptive_suffix with
  | none => ([], adaptive_suffix, [])
  | some (st, en) =>
    ((processBlocks 1
        ((splitBy matchExampleLen (stripWs (adaptive_suffix.drop en))).drop 1)).1,
      stripWs (adaptive_suffix.take st),
      (processBlocks 1
        ((splitBy matchExampleLen (stripWs (adaptive_suffix.drop en))).drop 1)).2)

-- # Theorems

-- ## Substring lemmas

theorem isPrefixOfB_refl (n : List Char) : isPrefixOfB n n = true := by
  induction n with
  | nil => rfl
  | cons a as ih => simp [isPrefixOfB, ih]

theorem containsSub_nil_needle (h : List Char) : containsSub [] h = true := by
  cases h with
  | nil => rfl
  | cons x xs => simp [containsSub, isPrefixOfB]

theorem containsSub_append_right (n a b : List Char)
    (h : containsSub n b = true) : containsSub n (a ++ b) = true := by
  induction a with
  | nil => simpa using h
  | cons x xs ih => simp [containsSub, ih]

theorem containsSub_suffix (n a : List Char) : containsSub n (a ++ n) = true := by
  cases n with
  | nil => exact containsSub_nil_needle _
  | cons c cs =>
    apply containsSub_append_right
    simp [containsSub, isPrefixOfB_refl]

-- ## Store lemmas

theorem dbGetOrder_after_update (db : OrdersDb) (oid note : List Char) :
    dbGetOrder (dbUpdateOrderResolution db oid note).1 oid =
      (dbGetOrder db oid).map (fun r => { r with resolution_note := some note }) := by
  induction db with
  | nil => rfl
  | cons r rest ih =>
    unfold dbGetOrder dbUpdateOrderResolution at *
    by_cases hr : r.order_id = oid
    · simp [List.find?, hr]
    · simp only [List.map_cons, List.find?, if_neg hr]
      simp only [decide_eq_true_eq, hr, decide_False]
      exact ih

-- ## C2

/-- C2: for every issue-type string whose stripped, upper-cased form is
`TRACK`, `IssueResolverTool._run` returns the tracking-redirect message and
leaves the order store untouched (it returns before any store write). -/
theorem issue_resolver_track_redirect (db : OrdersDb)
    (oid issue_type details mi ra : List Char)
    (h : upperStr (stripWs issue_type) = chars "TRACK") :
    issueResolverRun db oid issue_type details mi ra = (trackRedirectMsg, db) := by
  unfold issueResolverRun
  rw [h, (by decide : aliasMap.lookup (chars "TRACK") = none)]
  rfl

/-- Witness for C2 at a concrete casing/whitespace variant of `TRACK`. -/
theorem issue_resolver_track_redirect_witness :
    issueResolverRun sampleDb (chars "ORD-123456") (chars " Track \t")
      (chars "where is my food") [] [] = (trackRedirectMsg, sampleDb) :=
  issue_resolver_track_redirect sampleDb (chars "ORD-123456") (chars " Track \t")
    (chars "where is my food") [] [] (by decide)

-- ## C1 / C9

theorem resolverDispatch_late (db : OrdersDb) (oid details mi ra : List Char) :
    resolverDispatch db oid (chars "late_delivery") details mi ra =
      if containsSub (chars "confirm") (lowerStr details) = false then (lateGateMsg, db)
      else (processedReply oid lateCreditsNote,
        (dbUpdateOrderResolution db oid lateCreditsNote).1) := by
  unfold resolverDispatch
  rw [if_neg (by decide), if_neg (by decide), if_neg (by decide), if_neg (by decide),
    if_neg (by decide), if_neg (by decide), if_pos (by decide)]

theorem issueResolverRun_late (db : OrdersDb) (oid it details mi ra : List Char)
    (hit : it = chars "late_delivery" ∨ upperStr (stripWs it) = chars "LATE") :
    issueResolverRun db oid it details mi ra =
      resolverDispatch db oid (chars "late_delivery") details mi ra := by
  rcases hit with h | h
  · subst h
    unfold issueResolverRun
    rw [(by decide : aliasMap.lookup (upperStr (stripWs (chars "late_delivery"))) = none)]
    show (if upperStr (stripWs (chars "late_delivery")) = chars "TRACK" then
        (trackRedirectMsg, db)
      else resolverDispatch db oid (chars "late_delivery") details mi ra) = _
    rw [if_neg (by decide)]
  · unfold issueResolverRun
    rw [h, (by decide : aliasMap.lookup (chars "LATE") = some (chars "late_delivery"))]

/-- C1: with issue type `late_delivery` (or any casing of the alias `LATE`),
details lacking the case-insensitive marker `confirm` make
`IssueResolverTool._run` return the instructive rejection string with the
store unchanged (no persistence write); details containing the marker make it
persist the delivery-credits note on the order and return a confirmation reply
containing the words `delivery credits`. -/
theorem late_delivery_confirmation_gate (db : OrdersDb) (oid it details mi ra : List Char)
    (hit : it = chars "late_delivery" ∨ upperStr (stripWs it) = chars "LATE") :
    (containsSub (chars "confirm") (lowerStr details) = false →
      issueResolverRun db oid it details mi ra = (lateGateMsg, db)) ∧
    (containsSub (chars "confirm") (lowerStr details) = true →
      (issueResolverRun db oid it details mi ra).1 = processedReply oid lateCreditsNote ∧
      containsSub (chars "delivery credits") (issueResolverRun db oid it details mi ra).1 = true ∧
      dbGetOrder (issueResolverRun db oid it details mi ra).2 oid =
        (dbGetOrder db oid).map (fun r => { r with resolution_note := some lateCreditsNote })) := by
  rw [issueResolverRun_late db oid it details mi ra hit, resolverDispatch_late]
  constructor
  · intro hc
    rw [if_pos hc]
  · intro hc
    rw [if_neg (by simp [hc])]
    refine ⟨rfl, ?_, dbGetOrder_after_update db oid lateCreditsNote⟩
    unfold processedReply
    rw [List.append_assoc, List.append_assoc]
    exact containsSub_append_right _ _ _
      (containsSub_append_right _ _ _ (by decide))

/-- Witness for C1: a concrete unconfirmed call is rejected without a write,
and a concrete confirmed call (via the alias casing `Late`) returns the
credits confirmation. -/
theorem late_delivery_confirmation_gate_witness :
    issueResolverRun sampleDb (chars "ORD-123456") (chars "late_delivery")
      (chars "order is 50 mins late") [] [] = (lateGateMsg, sampleDb) ∧
    (issueResolverRun sampleDb (chars "ORD-123456") (chars "Late")
      (chars "user Confirmed the delay") [] []).1 =
        processedReply (chars "ORD-123456") lateCreditsNote :=
  ⟨(late_delivery_confirmation_gate sampleDb (chars "ORD-123456") (chars "late_delivery")
      (chars "order is 50 mins late") [] [] (Or.inl rfl)).1 (by decide),
    ((late_delivery_confirmation_gate sampleDb (chars "ORD-123456") (chars "Late")
      (chars "user Confirmed the delay") [] [] (Or.inr (by decide))).2 (by decide)).1⟩

theorem processedReply_take7 (oid res : List Char) :
    (processedReply oid res).take 7 = chars "I have " := by
  unfold processedReply
  rw [List.append_assoc, List.append_assoc,
    List.take_append_of_le_length (by decide)]
  decide

/-- C9: the late-delivery gate is decided exactly by case-insensitive
containment of `confirm` in the details — the call persists the credits note
if and only if the containment holds, and negated phrasings such as
`not confirmed` or `unconfirmed` contain the marker and therefore pass. -/
theorem late_gate_is_bare_containment (db : OrdersDb) (oid details : List Char) :
    (containsSub (chars "confirm") (lowerStr details) = true ↔
      issueResolverRun db oid (chars "late_delivery") details [] [] =
        (processedReply oid lateCreditsNote,
          (dbUpdateOrderResolution db oid lateCreditsNote).1)) ∧
    containsSub (chars "confirm") (lowerStr (chars "not confirmed")) = true ∧
    containsSub (chars "confirm") (lowerStr (chars "unconfirmed")) = true := by
  refine ⟨?_, by decide, by decide⟩
  rw [issueResolverRun_late db oid (chars "late_delivery") details [] [] (Or.inl rfl),
    resolverDispatch_late]
  constructor
  · intro hc
    rw [if_neg (by simp [hc])]
  · intro heq
    by_cases hc : containsSub (chars "confirm") (lowerStr details) = true
    · exact hc
    · rw [if_pos (by simpa using hc)] at heq
      have h1 : lateGateMsg = processedReply oid lateCreditsNote :=
        congrArg Prod.fst heq
      have h2 := congrArg (List.take 7) h1
      rw [processedReply_take7] at h2
      exact absurd h2 (by decide)

-- ## C3 (corrected)

/-- Counterexample to C3 as stated: for an order with a set resolution note,
`OrderTrackerTool._run` still embeds the original status text in its reply,
and two orders with the identical note but different stored statuses get
different replies — so the reply is not determined by the note alone and the
note is not surfaced *instead of* the status. -/
theorem tracker_reply_uses_status_counterexample :
    containsSub (chars "out for delivery")
      (orderTrackerRun [trackRowA] (chars "ORD-111111")) = true ∧
    trackRowA.resolution_note = trackRowB.resolution_note ∧
    orderTrackerRun [trackRowA] (chars "ORD-111111") ≠
      orderTrackerRun [trackRowB] (chars "ORD-111111") := by decide

/-- C3 as amended: for every order whose resolution note is non-null, the
status-lookup reply surfaces (contains) the resolution note text — alongside,
not instead of, the stored status. -/
theorem tracker_surfaces_resolution_note (db : OrdersDb) (oid : List Char)
    (row : OrderRow) (note : List Char)
    (hget : dbGetOrder db oid = some row)
    (hnote : row.resolution_note = some note) :
    containsSub note (orderTrackerRun db oid) = true := by
  unfold orderTrackerRun
  rw [hget]
  show containsSub note (orderTrackerFound oid row) = true
  unfold orderTrackerFound
  by_cases hz : note = []
  · subst hz
    exact containsSub_nil_needle _
  · rw [if_pos (by simp [hnote, hz])]
    rw [hnote]
    exact containsSub_suffix _ _

/-- Witness for the amended C3 at a concrete order. -/
theorem tracker_surfaces_resolution_note_witness :
    containsSub (chars "a credit was issued")
      (orderTrackerRun [trackRowA] (chars "ORD-111111")) = true :=
  tracker_surfaces_resolution_note [trackRowA] (chars "ORD-111111") trackRowA
    (chars "a credit was issued") (by decide) (by decide)

-- ## C8 (corrected)

/-- Counterexample to C8 as stated: on an order id absent from the store the
update is indeed a no-op, but the claimed log line does not exist — the
function body contains no logging call, so the emitted output (the second
component of the embedding) is empty. -/
theorem update_resolution_no_log_counterexample :
    (dbUpdateOrderResolution sampleDb (chars "ORD-404") (chars "note")).1 = sampleDb ∧
    (dbUpdateOrderResolution sampleDb (chars "ORD-404") (chars "note")).2 = [] := by decide

/-- C8 as amended: setting a resolution note is an idempotent overwrite, the
call never emits any log output, and on an id matching no row it is a silent
no-op (the `UPDATE` matches zero rows and nothing is raised). -/
theorem update_resolution_idempotent_noop (db : OrdersDb) (oid note : List Char) :
    (dbUpdateOrderResolution (dbUpdateOrderResolution db oid note).1 oid note).1 =
      (dbUpdateOrderResolution db oid note).1 ∧
    (dbUpdateOrderResolution db oid note).2 = [] ∧
    ((∀ r ∈ db, r.order_id ≠ oid) → (dbUpdateOrderResolution db oid note).1 = db) := by
  refine ⟨?_, rfl, ?_⟩
  · unfold dbUpdateOrderResolution
    induction db with
    | nil => rfl
    | cons r rest ih =>
      simp only [List.map_cons, List.cons.injEq]
      constructor
      · by_cases hr : r.order_id = oid
        · simp [hr]
        · simp [hr]
      · simpa using ih
  · intro hfresh
    unfold dbUpdateOrderResolution
    induction db with
    | nil => rfl
    | cons r rest ih =>
      simp only [List.map_cons, List.cons.injEq]
      refine ⟨if_neg (hfresh r (by simp)), ?_⟩
      simpa using ih (fun x hx => hfresh x (by simp [hx]))

/-- Witness for the amended C8: a concrete missing id leaves the concrete
store unchanged. -/
theorem update_resolution_idempotent_noop_witness :
    (dbUpdateOrderResolution sampleDb (chars "ORD-404") (chars "n")).1 = sampleDb :=
  (update_resolution_idempotent_noop sampleDb (chars "ORD-404") (chars "n")).2.2
    (by decide)

theorem catScore3_eq_0 : catScore 3 0 = 0 := by
  norm_num [catScore, round1, round_eq]

theorem catScore3_eq_1 : catScore 3 1 = 333/10 := by
  norm_num [catScore, round1, round_eq]

theorem catScore3_eq_2 : catScore 3 2 = 667/10 := by
  norm_num [catScore, round1, round_eq]

theorem catScore3_eq_hi (m : Nat) (h : 3 ≤ m) : catScore 3 m = 100 := by
  unfold catScore
  rw [show min m 3 = 3 by omega]
  norm_num [round1, round_eq]

theorem catScore1_eq_0 : catScore 1 0 = 0 := by
  norm_num [catScore, round1, round_eq]

theorem catScore1_eq_hi (m : Nat) (h : 1 ≤ m) : catScore 1 m = 100 := by
  unfold catScore
  rw [show min m 1 = 1 by omega]
  norm_num [round1, round_eq]

theorem catScore3_cases (m : Nat) :
    catScore 3 m = 0 ∨ catScore 3 m = 333/10 ∨ catScore 3 m = 667/10 ∨
      catScore 3 m = 100 := by
  rcases Nat.lt_or_ge m 3 with h | h
  · interval_cases m
    · exact Or.inl catScore3_eq_0
    · exact Or.inr (Or.inl catScore3_eq_1)
    · exact Or.inr (Or.inr (Or.inl catScore3_eq_2))
  · exact Or.inr (Or.inr (Or.inr (catScore3_eq_hi m h)))

theorem catScore1_cases (m : Nat) :
    catScore 1 m = 0 ∨ catScore 1 m = 100 := by
  rcases Nat.lt_or_ge m 1 with h | h
  · interval_cases m
    exact Or.inl catScore1_eq_0
  · exact Or.inr (catScore1_eq_hi m h)

theorem catScore3_le_100 (m : Nat) : catScore 3 m ≤ 100 := by
  rcases catScore3_cases m with h | h | h | h <;> rw [h] <;> norm_num

theorem catScore1_le_100 (m : Nat) : catScore 1 m ≤ 100 := by
  rcases catScore1_cases m with h | h <;> rw [h]
  norm_num

theorem catScore3_succ_le (m : Nat) (h : m < 3) :
    catScore 3 m ≤ catScore 3 (m + 1) := by
  interval_cases m
  · rw [catScore3_eq_0, catScore3_eq_1]; norm_num
  · rw [catScore3_eq_1, catScore3_eq_2]; norm_num
  · rw [catScore3_eq_2, catScore3_eq_hi 3 (by omega)]; norm_num

theorem catScore1_succ_le (m : Nat) (h : m < 1) :
    catScore 1 m ≤ catScore 1 (m + 1) := by
  interval_cases m
  rw [catScore1_eq_0, catScore1_eq_hi 1 (by omega)]; norm_num

/-- C4: the rubric phrase-scorer is monotone in matches — a text matching one
more exemplar phrase of a category, while the match count is below the
category target (3 for accuracy/empathy/resolution, 1 for clarity/tone),
never scores lower in that category; and no category score ever exceeds 100,
however many phrases beyond the target match. -/
theorem rubric_scorer_monotone_capped (cat : RubricCat) (t1 t2 : List Char)
    (h1 : matchCountOf cat t2 = matchCountOf cat t1 + 1)
    (h2 : matchCountOf cat t1 < targetOf cat) :
    scoreOf cat t1 ≤ scoreOf cat t2 ∧ ∀ t : List Char, scoreOf cat t ≤ 100 := by
  constructor
  · unfold scoreOf
    rw [h1]
    cases cat
    · exact catScore3_succ_le _ h2
    · exact catScore3_succ_le _ h2
    · exact catScore3_succ_le _ h2
    · exact catScore1_succ_le _ h2
  · intro t
    unfold scoreOf
    cases cat
    · exact catScore3_le_100 _
    · exact catScore3_le_100 _
    · exact catScore3_le_100 _
    · exact catScore1_le_100 _

/-- Witness for C4: the empty text matches no accuracy phrase, `"eta"` matches
exactly one, and the scores step from 0 to 33.3. -/
theorem rubric_scorer_monotone_capped_witness :
    scoreOf RubricCat.accuracy (chars "") ≤ scoreOf RubricCat.accuracy (chars "eta") ∧
    ∀ t : List Char, scoreOf RubricCat.accuracy t ≤ 100 :=
  rubric_scorer_monotone_capped RubricCat.accuracy (chars "") (chars "eta")
    (by decide) (by decide)

/-- C10: `semantic_rubric_scores` is total, returns exactly the four
categories (the fields of `RubricScores`), every score lies in [0, 100],
accuracy/empathy/resolution are each one of 0, 33.3, 66.7, 100, and
clarity_tone is 0 or 100. -/
theorem rubric_scores_total_and_quantised (text : List Char) :
    ((semanticRubricScores text).accuracy = 0 ∨
     (semanticRubricScores text).accuracy = 333/10 ∨
     (semanticRubricScores text).accuracy = 667/10 ∨
     (semanticRubricScores text).accuracy = 100) ∧
    ((semanticRubricScores text).empathy = 0 ∨
     (semanticRubricScores text).empathy = 333/10 ∨
     (semanticRubricScores text).empathy = 667/10 ∨
     (semanticRubricScores text).empathy = 100) ∧
    ((semanticRubricScores text).resolution = 0 ∨
     (semanticRubricScores text).resolution = 333/10 ∨
     (semanticRubricScores text).resolution = 667/10 ∨
     (semanticRubricScores text).resolution = 100) ∧
    ((semanticRubricScores text).clarity_tone = 0 ∨
     (semanticRubricScores text).clarity_tone = 100) ∧
    (0 ≤ (semanticRubricScores text).accuracy ∧
      (semanticRubricScores text).accuracy ≤ 100) ∧
    (0 ≤ (semanticRubricScores text).empathy ∧
      (semanticRubricScores text).empathy ≤ 100) ∧
    (0 ≤ (semanticRubricScores text).resolution ∧
      (semanticRubricScores text).resolution ≤ 100) ∧
    (0 ≤ (semanticRubricScores text).clarity_tone ∧
      (semanticRubricScores text).clarity_tone ≤ 100) := by
  have ha := catScore3_cases (matchCountOf .accuracy text)
  have he := catScore3_cases (matchCountOf .empathy text)
  have hr := catScore3_cases (matchCountOf .resolution text)
  have hc := catScore1_cases (matchCountOf .clarity_tone text)
  refine ⟨ha, he, hr, hc, ?_, ?_, ?_, ?_⟩
  · rcases ha with h | h | h | h <;> rw [show (semanticRubricScores text).accuracy = _ from h] <;> norm_num
  · rcases he with h | h | h | h <;> rw [show (semanticRubricScores text).empathy = _ from h] <;> norm_num
  · rcases hr with h | h | h | h <;> rw [show (semanticRubricScores text).resolution = _ from h] <;> norm_num
  · rcases hc with h | h <;> rw [show (semanticRubricScores text).clarity_tone = _ from h] <;> norm_num

theorem findCharIdx_cons (c x : Char) (xs : List Char) :
    findCharIdx c (x :: xs) =
      if x = c then some 0 else (findCharIdx c xs).map (· + 1) := rfl

theorem rfindCharIdx_cons (c x : Char) (xs : List Char) :
    rfindCharIdx c (x :: xs) =
      match rfindCharIdx c xs with
      | some i => some (i + 1)
      | none => if x = c then some 0 else none := rfl

theorem findCharIdx_eq_none (c : Char) (l : List Char) (h : c ∉ l) :
    findCharIdx c l = none := by
  induction l with
  | nil => rfl
  | cons x xs ih =>
    simp only [List.mem_cons, not_or] at h
    rw [findCharIdx_cons, if_neg (fun hx => h.1 hx.symm), ih h.2]
    rfl

theorem findCharIdx_append (c : Char) (l1 l2 : List Char) (h : c ∉ l1) :
    findCharIdx c (l1 ++ l2) = (findCharIdx c l2).map (· + l1.length) := by
  induction l1 with
  | nil =>
    simp only [List.nil_append, List.length_nil]
    cases h2 : findCharIdx c l2 <;> simp
  | cons x xs ih =>
    simp only [List.mem_cons, not_or] at h
    rw [List.cons_append, findCharIdx_cons, if_neg (fun hx => h.1 hx.symm), ih h.2]
    cases h2 : findCharIdx c l2 <;> simp [Nat.add_assoc]

theorem rfindCharIdx_eq_none (c : Char) (l : List Char) (h : c ∉ l) :
    rfindCharIdx c l = none := by
  induction l with
  | nil => rfl
  | cons x xs ih =>
    simp only [List.mem_cons, not_or] at h
    rw [rfindCharIdx_cons, ih h.2]
    show (if x = c then some 0 else (none : Option Nat)) = none
    exact if_neg (fun hx => h.1 hx.symm)

theorem rfindCharIdx_append_none (c : Char) (l1 l2 : List Char) (h : c ∉ l2) :
    rfindCharIdx c (l1 ++ l2) = rfindCharIdx c l1 := by
  induction l1 with
  | nil => exact rfindCharIdx_eq_none c l2 h
  | cons x xs ih =>
    rw [List.cons_append, rfindCharIdx_cons, rfindCharIdx_cons, ih]

theorem rfindCharIdx_append_last (c : Char) (l : List Char) :
    rfindCharIdx c (l ++ [c]) = some l.length := by
  induction l with
  | nil => simp [rfindCharIdx]
  | cons x xs ih =>
    rw [List.cons_append, rfindCharIdx_cons, ih]
    rfl

/-- C5: for input consisting of arbitrary prose around a single well-formed
JSON object (the only brace characters being the object's), the judge's
response parser extracts exactly the object text (which `json.loads` then
parses as that object); and for any input missing an opening or a closing
brace, the evaluate path catches the `ValueError` and returns the documented
all-zero defaults tagged with the `evaluation_error` failure mode — no
exception reaches the caller. -/
theorem judge_parse_extract_and_default (pre obj post : List Char)
    (hpre1 : '\x7b' ∉ pre) (hpre2 : '\x7d' ∉ pre)
    (hpost1 : '\x7b' ∉ post) (hpost2 : '\x7d' ∉ post)
    (hhead : ∃ t, obj = '\x7b' :: t) (hlast : ∃ u, obj = u ++ ['\x7d']) :
    parseLLMResponseExtract (pre ++ obj ++ post) = Except.ok obj ∧
    (∀ s : List Char, '\x7b' ∉ s ∨ '\x7d' ∉ s →
      evaluateResponseParse s = JudgeEval.defaulted getDefaultScores) ∧
    getDefaultScores.failure_modes = [chars "evaluation_error"] ∧
    getDefaultScores.empathy = 0 ∧ getDefaultScores.accuracy = 0 ∧
    getDefaultScores.policy_compliance = 0 ∧
    getDefaultScores.resolution_quality = 0 ∧
    getDefaultScores.phase_compliance = 0 ∧
    getDefaultScores.overall_score = 0 := by
  obtain ⟨t, ht⟩ := hhead
  obtain ⟨u, hu⟩ := hlast
  refine ⟨?_, ?_, rfl, rfl, rfl, rfl, rfl, rfl, rfl⟩
  · have hfind : findCharIdx '\x7b' (pre ++ obj ++ post) = some pre.length := by
      rw [List.append_assoc, findCharIdx_append _ _ _ hpre1, ht, List.cons_append,
        findCharIdx_cons, if_pos rfl]
      simp
    have hrfind : rfindCharIdx '\x7d' (pre ++ obj ++ post) =
        some (pre.length + u.length) := by
      rw [rfindCharIdx_append_none _ _ _ hpost2, hu, ← List.append_assoc,
        rfindCharIdx_append_last]
      simp
    unfold parseLLMResponseExtract
    rw [hfind, hrfind]
    show Except.ok
        (List.drop pre.length
          (List.take (pre.length + u.length + 1) (pre ++ obj ++ post))) =
      Except.ok obj
    have hobj : obj.length = u.length + 1 := by rw [hu]; simp
    have hlen : pre.length + u.length + 1 = (pre ++ obj).length := by
      rw [List.length_append, hobj]
      omega
    rw [hlen, List.take_left, List.drop_left]
  · intro s hs
    unfold evaluateResponseParse parseLLMResponseExtract
    rcases hs with hs | hs
    · rw [findCharIdx_eq_none _ _ hs]
    · rw [rfindCharIdx_eq_none _ _ hs]
      cases findCharIdx '\x7b' s <;> rfl

/-- Witness for C5 at concrete prose-wrapped JSON and a brace-free input. -/
theorem judge_parse_extract_and_default_witness :
    parseLLMResponseExtract
        (chars "Verdict: " ++ chars "\x7b\"empathy\": 7\x7d" ++ chars " done") =
      Except.ok (chars "\x7b\"empathy\": 7\x7d") ∧
    evaluateResponseParse (chars "no braces here") =
      JudgeEval.defaulted getDefaultScores :=
  ⟨(judge_parse_extract_and_default (chars "Verdict: ")
      (chars "\x7b\"empathy\": 7\x7d") (chars " done")
      (by decide) (by decide) (by decide) (by decide)
      ⟨chars "\"empathy\": 7\x7d", by decide⟩
      ⟨chars "\x7b\"empathy\": 7", by decide⟩).1,
    (judge_parse_extract_and_default (chars "Verdict: ")
      (chars "\x7b\"empathy\": 7\x7d") (chars " done")
      (by decide) (by decide) (by decide) (by decide)
      ⟨chars "\"empathy\": 7\x7d", by decide⟩
      ⟨chars "\x7b\"empathy\": 7", by decide⟩).2.1
      (chars "no braces here") (Or.inl (by decide))⟩

theorem find_id_eq_none (db : OrdersDb) (oid : List Char)
    (h : ∀ r ∈ db, r.order_id ≠ oid) :
    db.find? (fun r => r.order_id = oid) = none := by
  induction db with
  | nil => rfl
  | cons r rest ih =>
    have hr : r.order_id ≠ oid := h r (by simp)
    simp only [List.find?, decide_eq_false hr]
    exact ih (fun x hx => h x (by simp [hx]))

theorem find_id_append_singleton (db : OrdersDb) (row : OrderRow) (oid : List Char)
    (h : ∀ r ∈ db, r.order_id ≠ oid) (hrow : row.order_id = oid) :
    dbGetOrder (db ++ [row]) oid = some row := by
  induction db with
  | nil =>
    unfold dbGetOrder
    simp [List.find?, hrow]
  | cons r rest ih =>
    have hr : r.order_id ≠ oid := h r (by simp)
    unfold dbGetOrder at *
    rw [List.cons_append]
    simp only [List.find?, decide_eq_false hr]
    exact ih (fun x hx => h x (by simp [hx]))

theorem createWithLabel_known (templates : List (List Char × ScenarioTemplate))
    (db : OrdersDb) (newId label2 : List Char) (t : ScenarioTemplate)
    (h : templates.lookup label2 = some t) :
    createWithLabel templates db newId label2 =
      (dbCreateOrder db newId label2 t).map (fun db2 => (db2, newId, label2)) := by
  unfold createWithLabel
  rw [h]

theorem dbCreateOrder_fresh (db : OrdersDb) (oid label : List Char)
    (t : ScenarioTemplate) (hfresh : ∀ r ∈ db, r.order_id ≠ oid) :
    dbCreateOrder db oid label t =
      Except.ok (db ++ [⟨oid, t.status.getD (chars "unknown"),
        jsonDumpsStrList (t.items.getD []), t.eta, label, none⟩]) := by
  unfold dbCreateOrder dbInsertOrder
  simp [find_id_eq_none db oid hfresh]

/-- C7: for a label present in the loaded templates, order creation stores an
order whose issue label equals the requested label and whose resolution note
is initially null. -/
theorem create_order_known_label (templates : List (List Char × ScenarioTemplate))
    (db : OrdersDb) (newId label : List Char) (t : ScenarioTemplate)
    (hl : label ≠ [])
    (hknown : templates.lookup label = some t)
    (hfresh : ∀ r ∈ db, r.order_id ≠ newId) :
    ∃ db2, assignAndCreateOrder templates db newId none (some label) =
        Except.ok (db2, newId, label) ∧
      ∃ row, dbGetOrder db2 newId = some row ∧
        row.issue_label = label ∧ row.resolution_note = none := by
  have hinf : inferredLabel none (some label) = some label := by
    unfold inferredLabel
    rw [if_neg]
    rintro ⟨h1, -⟩
    rcases h1 with h1 | h1
    · exact Option.noConfusion h1
    · exact hl (Option.some.injEq _ _ ▸ h1)
  have hchosen : chosenLabel templates (some label) = label := by
    unfold chosenLabel
    rw [if_neg]
    · rfl
    · rintro (h1 | h1)
      · exact Option.noConfusion h1
      · exact hl (Option.some.injEq _ _ ▸ h1)
  refine ⟨db ++ [⟨newId, t.status.getD (chars "unknown"),
      jsonDumpsStrList (t.items.getD []), t.eta, label, none⟩], ?_, ?_⟩
  · unfold assignAndCreateOrder
    rw [hinf, hchosen, createWithLabel_known templates db newId label t hknown,
      dbCreateOrder_fresh db newId label t hfresh]
    rfl
  · refine ⟨_, find_id_append_singleton db _ newId hfresh rfl, rfl, rfl⟩
/-- Witness for C7 at a concrete template store, label and fresh id. -/
theorem create_order_known_label_witness :
    ∃ db2, assignAndCreateOrder demoTemplates [] (chars "ORD-222222") none
        (some (chars "LATE")) = Except.ok (db2, chars "ORD-222222", chars "LATE") ∧
      ∃ row, dbGetOrder db2 (chars "ORD-222222") = some row ∧
        row.issue_label = chars "LATE" ∧ row.resolution_note = none :=
  create_order_known_label demoTemplates [] (chars "ORD-222222") (chars "LATE")
    ⟨some (chars "out for delivery"), some [chars "Chicken Burger"],
      some (chars "10 mins")⟩
    (by decide) (by decide) (by simp)

theorem processBlocks_cons_good (i : Nat) (b : List Char) (rest : List (List Char))
    (p0 u a : List Char) (r : List (List Char))
    (hs : splitBy matchUserAgentLen b = p0 :: u :: a :: r)
    (hu : stripWs u ≠ []) (ha : stripWs a ≠ []) :
    processBlocks i (b :: rest) =
      (FewShotMsg.human (stripWs u) :: FewShotMsg.ai (stripWs a) ::
          (processBlocks (i + 1) rest).1,
        (processBlocks (i + 1) rest).2) := by
  conv_lhs => rw [processBlocks]
  simp only [hs]
  rw [if_neg (not_or.mpr ⟨hu, ha⟩)]

theorem processBlocks_cons_short (i : Nat) (b : List Char) (rest : List (List Char))
    (q0 u : List Char)
    (hs : splitBy matchUserAgentLen b = [q0, u]) :
    processBlocks i (b :: rest) =
      ((processBlocks (i + 1) rest).1,
        warnMissingParts i :: (processBlocks (i + 1) rest).2) := by
  conv_lhs => rw [processBlocks]
  simp only [hs]

/-- C6: on a suffix whose few-shot section splits into two example blocks,
each splitting into a (User, Agent) pair of non-empty halves, the parser
returns exactly the two message pairs in original order with no warning; if
the second block is missing its Agent half (only two split parts), the
parser returns only the well-formed example and records the skip warning —
in both cases the function is total, so no exception is raised. -/
theorem few_shot_parse_examples_spec (suffix pre0 B1 B2 p0 u1 a1 : List Char)
    (r1 : List (List Char)) (st en : Nat)
    (hm : searchMarker suffix = some (st, en))
    (hb : splitBy matchExampleLen (stripWs (suffix.drop en)) = [pre0, B1, B2])
    (hs1 : splitBy matchUserAgentLen B1 = p0 :: u1 :: a1 :: r1)
    (hu1 : stripWs u1 ≠ []) (ha1 : stripWs a1 ≠ []) :
    (∀ (q0 u2 a2 : List Char) (r2 : List (List Char)),
      splitBy matchUserAgentLen B2 = q0 :: u2 :: a2 :: r2 →
      stripWs u2 ≠ [] → stripWs a2 ≠ [] →
      parseFewShotExamples suffix =
        ([FewShotMsg.human (stripWs u1), FewShotMsg.ai (stripWs a1),
          FewShotMsg.human (stripWs u2), FewShotMsg.ai (stripWs a2)],
         stripWs (suffix.take st), [])) ∧
    (∀ q0 u2 : List Char,
      splitBy matchUserAgentLen B2 = [q0, u2] →
      parseFewShotExamples suffix =
        ([FewShotMsg.human (stripWs u1), FewShotMsg.ai (stripWs a1)],
         stripWs (suffix.take st), [warnMissingParts 2])) := by
  have hblocks :
      (splitBy matchExampleLen (stripWs (suffix.drop en))).drop 1 = [B1, B2] := by
    rw [hb]
    rfl
  constructor
  · intro q0 u2 a2 r2 hs2 hu2 ha2
    unfold parseFewShotExamples
    simp only [hm]
    rw [hblocks, processBlocks_cons_good 1 B1 [B2] p0 u1 a1 r1 hs1 hu1 ha1,
      processBlocks_cons_good 2 B2 [] q0 u2 a2 r2 hs2 hu2 ha2]
    rfl
  · intro q0 u2 hs2
    unfold parseFewShotExamples
    simp only [hm]
    rw [hblocks, processBlocks_cons_good 1 B1 [B2] p0 u1 a1 r1 hs1 hu1 ha1,
      processBlocks_cons_short 2 B2 [] q0 u2 hs2]
    rfl

set_option maxRecDepth 10000 in
/-- Witness for C6 at a concrete suffix holding two well-formed examples. -/
theorem few_shot_parse_examples_spec_witness :
    parseFewShotExamples (chars "You are helpful. **Few-shot examples:** Example 1: **User:** Hi there **Agent:** Hello friend Example 2: **User:** Where is my food **Agent:** On its way") =
      ([FewShotMsg.human (chars "Hi there"), FewShotMsg.ai (chars "Hello friend"),
        FewShotMsg.human (chars "Where is my food"), FewShotMsg.ai (chars "On its way")],
       chars "You are helpful.", []) := by
  have h := (few_shot_parse_examples_spec
    (chars "You are helpful. **Few-shot examples:** Example 1: **User:** Hi there **Agent:** Hello friend Example 2: **User:** Where is my food **Agent:** On its way")
    (chars "") (chars " **User:** Hi there **Agent:** Hello friend ")
    (chars " **User:** Where is my food **Agent:** On its way")
    (chars " ") (chars " Hi there ") (chars " Hello friend ") [] 17 39
    (by decide) (by decide) (by decide) (by decide) (by decide)).1
    (chars " ") (chars " Where is my food ") (chars " On its way") []
    (by decide) (by decide) (by decide)
  exact h.trans (by decide)
